import Mathlib

/-!
Verification development for the authentication routes of the `website`
repository (`src/routes/auth.py`, `src/schemas.py`).

The route handlers and request schemas are embedded directly from the
source.  The collaborators they call (`auth_service`, `repository_auth`)
are not part of the available sources; they are modelled from the spec
(sections 4.1, 4.2 and 6), as marked on each definition.
-/

set_option autoImplicit false

namespace Website

/-- Token scopes, one per token kind (spec section 3). -/
inductive Scope where
  | access
  | refresh
  | email_verify
  | password_reset
deriving DecidableEq, Repr

/-- The claims embedded in a signed token: subject (email), scope,
issued-at and expires-at (spec section 3). -/
structure TokenPayload where
  subject : String
  scope : Scope
  iat : Nat
  exp : Nat
deriving DecidableEq, Repr

/-- A bearer token string: either a well-signed token carrying a payload,
or any other string (malformed / bad signature). -/
inductive Token where
  | signed (p : TokenPayload)
  | malformed (s : String)
deriving DecidableEq, Repr

/-- The error taxonomy of spec section 7, plus the interface-level
rejection produced by schema validation (FastAPI 422). -/
inductive AuthError where
  | accountExists
  | unknownAccount
  | accountUnconfirmed
  | badCredential
  | tokenInvalid
  | tokenExpired
  | tokenScopeMismatch
  | refreshReuseDetected
  | validationRejected
deriving DecidableEq, Repr

/-- Status messages returned by the routes (`src/conf/messages` constants). -/
inductive Msg where
  | emailAlreadyConfirmed
  | checkEmailConfirmed
  | emailConfirmed
  | passwordResetEmailSuccess
  | passwordResetSuccess
deriving DecidableEq, Repr

/-- An account record (spec section 3): numeric id, username, email,
password hash, confirmed flag, current refresh token (nullable), avatar. -/
structure Account where
  id : Nat
  username : String
  email : String
  password : String
  confirmed : Bool
  refresh_token : Option Token
  avatar : String
deriving DecidableEq, Repr

/-- The account store: the list of account rows. -/
abbrev Db := List Account

/-- Result of one route invocation: a success value together with the
resulting store, an HTTPException mapped to the error taxonomy together
with the resulting store, or a crash (an uncaught `AttributeError` from
dereferencing an absent account). -/
inductive RouteResult (α : Type) where
  | ok : α → Db → RouteResult α
  | err : AuthError → Db → RouteResult α
  | crash : RouteResult α
deriving DecidableEq

/-- The token-pair response body (`TokenModel` in `src/schemas.py`). -/
structure TokenModel where
  access_token : Token
  refresh_token : Token
  token_type : String
deriving DecidableEq, Repr

/-- The signup request body (`UserSchema` in `src/schemas.py`):
username bounded to 5..16 characters, password to 6..10 characters.
The `email` field is additionally validated by the external `EmailStr`
type, which is outside the length-bound claims. -/
structure UserSchema where
  username : String
  email : String
  password : String
deriving DecidableEq, Repr

/-- Pydantic validation of the two `Field` length constraints of
`UserSchema` (`src/schemas.py` lines 5-8). -/
def UserSchema.validates (b : UserSchema) : Bool :=
  decide (5 ≤ b.username.length) && decide (b.username.length ≤ 16) &&
  decide (6 ≤ b.password.length) && decide (b.password.length ≤ 10)

/-- The reset-password request body (`ResetPasswordSchema` in
`src/schemas.py`): the new password and its repeated confirmation. -/
structure ResetPasswordSchema where
  new_password : String
  r_new_password : String
deriving DecidableEq, Repr

namespace auth_service

/-- Modelled from the spec: per-scope TTLs are configuration inputs
loaded at startup (spec sections 4.2 and 6); concrete values chosen for
the model, access short, refresh long, verification medium. -/
def ACCESS_TTL : Nat := 15

/-- Modelled from the spec: refresh-token TTL configuration input. -/
def REFRESH_TTL : Nat := 7 * 24 * 60

/-- Modelled from the spec: verification-token TTL configuration input. -/
def VERIFY_TTL : Nat := 24 * 60

/-- Modelled from the spec: the Credential Hasher's `hash` (spec
section 4.1), a one-way hash over the plaintext; the salt is abstracted
away, keeping determinism so the model stays executable. -/
def get_password_hash (plaintext : String) : String :=
  "hashed:" ++ plaintext

/-- Modelled from the spec: the Credential Hasher's `verify` (spec
section 4.1); true exactly when the hash is the hash of the plaintext. -/
def verify_password (plaintext stored_hash : String) : Bool :=
  stored_hash == get_password_hash plaintext

/-- Modelled from the spec: the Token Codec's `encode` with scope
`access` (spec section 4.2), as called with `data = { sub : email }`. -/
def create_access_token (email : String) (now : Nat) : Token :=
  Token.signed ⟨email, Scope.access, now, now + ACCESS_TTL⟩

/-- Modelled from the spec: the Token Codec's `encode` with scope
`refresh` (spec section 4.2). -/
def create_refresh_token (email : String) (now : Nat) : Token :=
  Token.signed ⟨email, Scope.refresh, now, now + REFRESH_TTL⟩

/-- Modelled from the spec: the Token Codec's `decode` (spec
section 4.2): verifies the signature, checks current time < expires-at,
checks the scope equals the expected scope; fails `TokenInvalid` on a
malformed or badly signed token, `TokenExpired` past expiry,
`TokenScopeMismatch` when the scope differs. -/
def decode_token (tok : Token) (expected : Scope) (now : Nat) :
    Except AuthError String :=
  match tok with
  | Token.malformed _ => Except.error AuthError.tokenInvalid
  | Token.signed p =>
      if now < p.exp then
        if p.scope = expected then Except.ok p.subject
        else Except.error AuthError.tokenScopeMismatch
      else Except.error AuthError.tokenExpired

/-- Modelled from the spec: `auth_service.decode_refresh_token` decodes
with expected scope `refresh` (spec section 4.3). -/
def decode_refresh_token (tok : Token) (now : Nat) : Except AuthError String :=
  decode_token tok Scope.refresh now

/-- Modelled from the spec: `auth_service.get_email_from_token` decodes a
purpose-scoped verification token; the spec assigns expected scope
`email-verify` in `confirm` and `password-reset` in `reset_password`
(spec section 4.4), so the expected scope is passed per call site. -/
def get_email_from_token (expected : Scope) (tok : Token) (now : Nat) :
    Except AuthError String :=
  decode_token tok expected now

end auth_service

/-- Update every row selected by `p` with `f`, the shape shared by the
narrow account-store writers of spec section 6. -/
def updWhere (p : Account → Bool) (f : Account → Account) (db : Db) : Db :=
  db.map (fun v => if p v then f v else v)

namespace repository_auth

/-- Modelled from the spec: the Account Store's `get_by_email` (spec
section 6), returning the first row with the given email, if any. -/
def get_user_by_email (email : String) (db : Db) : Option Account :=
  db.find? (fun u => u.email == email)

/-- Modelled from the spec: the Account Store's `create` (spec
section 6); a new row is appended, unconfirmed, with no refresh token
(spec section 8: an account registers unconfirmed). -/
def create_user (body : UserSchema) (db : Db) : Account × Db :=
  let u : Account :=
    { id := db.length
      username := body.username
      email := body.email
      password := body.password
      confirmed := false
      refresh_token := none
      avatar := "" }
  (u, db ++ [u])

/-- Modelled from the spec: the Account Store's `set_refresh_token`
(spec section 6), writing the (nullable) refresh token of the row with
the given account's id. -/
def update_token (user : Account) (tok : Option Token) (db : Db) : Db :=
  updWhere (fun v => v.id == user.id) (fun v => { v with refresh_token := tok }) db

/-- Modelled from the spec: the Account Store's `set_confirmed` (spec
section 6), keyed by email as at the call site
(`repository_auth.confirmed_email(email, db)`). -/
def confirmed_email (email : String) (db : Db) : Db :=
  updWhere (fun v => v.email == email) (fun v => { v with confirmed := true }) db

/-- Modelled from the spec: the Account Store's `set_password_hash`
(spec section 6), writing the password hash of the row with the given
account's id. -/
def update_user_password (user : Account) (hashed : String) (db : Db) : Db :=
  updWhere (fun v => v.id == user.id) (fun v => { v with password := hashed }) db

end repository_auth

open auth_service repository_auth

/-- `POST /auth/signup` (`src/routes/auth.py` lines 31-60): reject with
409 `ACCOUNT_EXIST` when the email is taken, otherwise hash the password
and create the user. -/
def signup (body : UserSchema) (db : Db) : RouteResult Account :=
  match get_user_by_email body.email db with
  | some _ => RouteResult.err AuthError.accountExists db
  | none =>
      let hashed := get_password_hash body.password
      let r := create_user { body with password := hashed } db
      RouteResult.ok r.1 r.2

/-- The signup route behind pydantic validation of its request body:
an invalid body is rejected with 422 before the handler runs. -/
def signup_endpoint (body : UserSchema) (db : Db) : RouteResult Account :=
  if body.validates then signup body db
  else RouteResult.err AuthError.validationRejected db

/-- `POST /auth/login` (`src/routes/auth.py` lines 64-99): 401
`INVALID_EMAIL` when no account has the email, 401 `EMAIL_NOT_CONFIRMED`
when unconfirmed, 401 `BAD_PASSWORD` when the hash check fails; otherwise
issue an access/refresh pair and store the refresh token. -/
def login (username password : String) (db : Db) (now : Nat) :
    RouteResult TokenModel :=
  match get_user_by_email username db with
  | none => RouteResult.err AuthError.unknownAccount db
  | some user =>
      if !user.confirmed then RouteResult.err AuthError.accountUnconfirmed db
      else if !verify_password password user.password then
        RouteResult.err AuthError.badCredential db
      else
        let access := create_access_token user.email now
        let refresh := create_refresh_token user.email now
        RouteResult.ok ⟨access, refresh, "bearer"⟩
          (update_token user (some refresh) db)

/-- `GET /auth/refresh_token` (`src/routes/auth.py` lines 103-134):
decode the presented refresh token; load the account by the decoded
subject (no `None` check: an absent account crashes at
`user.refresh_token`); on stored/presented mismatch null the stored
token and fail 401 `BAD_REFRESH_TOKEN`; on match issue and store a new
pair. -/
def refresh_token (credentials : Token) (db : Db) (now : Nat) :
    RouteResult TokenModel :=
  match decode_refresh_token credentials now with
  | Except.error e => RouteResult.err e db
  | Except.ok email =>
      match get_user_by_email email db with
      | none => RouteResult.crash
      | some user =>
          if user.refresh_token ≠ some credentials then
            RouteResult.err AuthError.refreshReuseDetected
              (update_token user none db)
          else
            let access := create_access_token email now
            let refresh := create_refresh_token email now
            RouteResult.ok ⟨access, refresh, "bearer"⟩
              (update_token user (some refresh) db)

/-- `POST /auth/request_email` (`src/routes/auth.py` lines 138-164):
load the account by email (no `None` check before `user.confirmed`: an
absent account crashes); already-confirmed returns its message, else the
confirmation mail task is queued (the `if user:` guard is reached only
with a present account, hence always true) and the check-email message
returned. -/
def request_email (email : String) (db : Db) : RouteResult Msg :=
  match get_user_by_email email db with
  | none => RouteResult.crash
  | some user =>
      if user.confirmed then RouteResult.ok Msg.emailAlreadyConfirmed db
      else RouteResult.ok Msg.checkEmailConfirmed db

/-- `GET /auth/confirmed_email/{token}` (`src/routes/auth.py` lines
168-188): decode the email-verify token; 400 `VERIFICATION_ERROR`
(unknown account) when the subject matches no account; return
already-confirmed without mutating when confirmed, else set
confirmed and return the confirmed message. -/
def confirmed_email (token : Token) (db : Db) (now : Nat) : RouteResult Msg :=
  match get_email_from_token Scope.email_verify token now with
  | Except.error e => RouteResult.err e db
  | Except.ok email =>
      match get_user_by_email email db with
      | none => RouteResult.err AuthError.unknownAccount db
      | some user =>
          if user.confirmed then RouteResult.ok Msg.emailAlreadyConfirmed db
          else RouteResult.ok Msg.emailConfirmed
            (repository_auth.confirmed_email email db)

/-- `POST /auth/reset_password_email` (`src/routes/auth.py` lines
192-214): load the account by email and queue the reset mail task with
`user.email`/`user.username` — with no `None` check, so an unknown email
crashes before the generic success message is returned. -/
def reset_password_email (email : String) (db : Db) : RouteResult Msg :=
  match get_user_by_email email db with
  | none => RouteResult.crash
  | some _user => RouteResult.ok Msg.passwordResetEmailSuccess db

/-- `POST /auth/reset_password/{token}` (`src/routes/auth.py` lines
218-242): decode the password-reset token; 404 `USER_NOT_FOUND` when the
subject matches no account; otherwise hash `body.new_password` and
overwrite the stored password hash (`body.r_new_password` is never
read). -/
def reset_password (token : Token) (body : ResetPasswordSchema) (db : Db)
    (now : Nat) : RouteResult Msg :=
  match get_email_from_token Scope.password_reset token now with
  | Except.error e => RouteResult.err e db
  | Except.ok email =>
      match get_user_by_email email db with
      | none => RouteResult.err AuthError.unknownAccount db
      | some user =>
          RouteResult.ok Msg.passwordResetSuccess
            (update_user_password user (get_password_hash body.new_password) db)

/-! Concrete fixtures used by the witness theorems. -/

/-- A confirmed account whose live refresh token was issued at time 0. -/
def wAcc : Account :=
  { id := 0
    username := "alice"
    email := "a@x.com"
    password := get_password_hash "secret"
    confirmed := true
    refresh_token := some (create_refresh_token "a@x.com" 0)
    avatar := "" }

/-- A one-account store holding `wAcc`. -/
def wDb : Db := [wAcc]

/-- An unconfirmed account with no stored refresh token. -/
def wAccU : Account :=
  { id := 0
    username := "alice"
    email := "a@x.com"
    password := get_password_hash "secret"
    confirmed := false
    refresh_token := none
    avatar := "" }

/-- A one-account store holding the unconfirmed `wAccU`. -/
def wDbU : Db := [wAccU]

/-- A well-signed refresh token for `a@x.com` issued at time 1 — valid,
but distinct from the stored token issued at time 0. -/
def wTokStale : Token := create_refresh_token "a@x.com" 1

/-- A well-signed email-verify token for `a@x.com`. -/
def wVerifyTok : Token := Token.signed ⟨"a@x.com", Scope.email_verify, 0, 100⟩

/-- A well-signed password-reset token for `a@x.com`. -/
def wResetTok : Token := Token.signed ⟨"a@x.com", Scope.password_reset, 0, 100⟩

/-- A signup body whose username is shorter than the 5-character bound. -/
def wBadBody : UserSchema := ⟨"abc", "b@x.com", "longpw"⟩

/-- The non-password fields of an account row, used to state frame
properties of the password writer. -/
def Account.frame (v : Account) :
    Nat × String × String × Bool × Option Token × String :=
  (v.id, v.username, v.email, v.confirmed, v.refresh_token, v.avatar)

/-! Helper lemmas about the account-store writers. -/

/-- The token codec only ever fails with one of its three error kinds. -/
theorem decode_token_error_kinds (tok : Token) (s : Scope) (now : Nat)
    (e : AuthError) (h : decode_token tok s now = Except.error e) :
    e = AuthError.tokenInvalid ∨ e = AuthError.tokenExpired ∨
      e = AuthError.tokenScopeMismatch := by
  unfold decode_token at h
  cases tok with
  | malformed s' =>
      simp at h
      exact Or.inl h.symm
  | signed p =>
      by_cases hexp : now < p.exp
      · by_cases hsc : p.scope = s
        · simp [hexp, hsc] at h
        · simp [hexp, hsc] at h
          exact Or.inr (Or.inr h.symm)
      · simp [hexp] at h
        exact Or.inr (Or.inl h.symm)

/-- Looking up by email after `updWhere` finds the same row, transformed,
provided the transformation preserves the email field. -/
theorem get_user_by_email_updWhere (e : String) (p : Account → Bool)
    (f : Account → Account) (hf : ∀ v, (f v).email = v.email) (db : Db) :
    get_user_by_email e (updWhere p f db) =
      (get_user_by_email e db).map (fun u => if p u then f u else u) := by
  unfold get_user_by_email updWhere
  rw [List.find?_map]
  have hpred : ((fun u : Account => u.email == e) ∘
      (fun v : Account => if p v then f v else v)) =
      (fun u : Account => u.email == e) := by
    funext u
    by_cases hp : p u
    · simp [Function.comp, hp, hf u]
    · simp [Function.comp, hp]
  rw [hpred]

/-- After `update_token user t db`, lookup by the email that found `user`
returns `user` with its refresh token replaced by `t`. -/
theorem find_update_token (e : String) (u : Account) (t : Option Token)
    (db : Db) (h : get_user_by_email e db = some u) :
    get_user_by_email e (update_token u t db) =
      some { u with refresh_token := t } := by
  unfold update_token
  rw [get_user_by_email_updWhere e (fun v => v.id == u.id)
    (fun v => { v with refresh_token := t }) (fun v => rfl) db, h]
  simp

/-- After `repository_auth.confirmed_email e db`, lookup by `e` returns
the account that was found before, now confirmed. -/
theorem find_confirmed_email (e : String) (u : Account) (db : Db)
    (h : get_user_by_email e db = some u) :
    get_user_by_email e (repository_auth.confirmed_email e db) =
      some { u with confirmed := true } := by
  have hu : (u.email == e) = true := by
    have hx := List.find?_some
      (show List.find? (fun v => v.email == e) db = some u from h)
    simpa using hx
  unfold repository_auth.confirmed_email
  rw [get_user_by_email_updWhere e (fun v => v.email == e)
    (fun v => { v with confirmed := true }) (fun v => rfl) db, h]
  have heq : u.email = e := by simpa using hu
  simp [heq]

/-- After `update_user_password user hp db`, lookup by the email that
found `user` returns `user` with its password hash replaced by `hp`. -/
theorem find_update_password (e : String) (u : Account) (hp : String)
    (db : Db) (h : get_user_by_email e db = some u) :
    get_user_by_email e (update_user_password u hp db) =
      some { u with password := hp } := by
  unfold update_user_password
  rw [get_user_by_email_updWhere e (fun v => v.id == u.id)
    (fun v => { v with password := hp }) (fun v => rfl) db, h]
  simp

/-- Any projection the row transformation preserves is preserved
pointwise across the whole store by `updWhere`. -/
theorem updWhere_map_proj {β : Type} (proj : Account → β) (p : Account → Bool)
    (f : Account → Account) (hf : ∀ v, proj (f v) = proj v) (db : Db) :
    (updWhere p f db).map proj = db.map proj := by
  unfold updWhere
  rw [List.map_map]
  have hpred : (proj ∘ fun v => if p v then f v else v) = proj := by
    funext u
    by_cases hp : p u
    · simp [Function.comp, hp, hf u]
    · simp [Function.comp, hp]
  rw [hpred]

/-! Claim theorems. -/

/-- C1: for every account and presented refresh token that decodes
successfully, a stored/presented mismatch makes the refresh route fail
with `RefreshReuseDetected` and null the stored refresh token, issuing
nothing; exactly on a match it issues a new access/refresh pair and
stores the new refresh token. -/
theorem refresh_rotates_iff_match_and_revokes_on_mismatch
    (tok : Token) (db : Db) (now : Nat) (email : String) (user : Account)
    (hdec : decode_refresh_token tok now = Except.ok email)
    (huser : get_user_by_email email db = some user) :
    (user.refresh_token ≠ some tok →
        refresh_token tok db now =
          RouteResult.err AuthError.refreshReuseDetected
            (update_token user none db) ∧
        get_user_by_email email (update_token user none db) =
          some { user with refresh_token := none }) ∧
    (user.refresh_token = some tok →
        refresh_token tok db now =
          RouteResult.ok
            ⟨create_access_token email now, create_refresh_token email now,
              "bearer"⟩
            (update_token user (some (create_refresh_token email now)) db) ∧
        get_user_by_email email
            (update_token user (some (create_refresh_token email now)) db) =
          some { user with
            refresh_token := some (create_refresh_token email now) }) := by
  constructor
  · intro hne
    refine ⟨?_, find_update_token email user none db huser⟩
    unfold refresh_token
    rw [hdec]
    simp [huser, hne]
  · intro heq
    refine ⟨?_, find_update_token email user _ db huser⟩
    unfold refresh_token
    rw [hdec]
    simp [huser, heq]

/-- Witness for C1: replaying a stale (rotated-away) refresh token
against the concrete store revokes the stored token and errors. -/
theorem refresh_rotates_iff_match_and_revokes_on_mismatch_witness :
    refresh_token wTokStale wDb 5 =
      RouteResult.err AuthError.refreshReuseDetected
        (update_token wAcc none wDb) ∧
    get_user_by_email "a@x.com" (update_token wAcc none wDb) =
      some { wAcc with refresh_token := none } :=
  (refresh_rotates_iff_match_and_revokes_on_mismatch wTokStale wDb 5
    "a@x.com" wAcc rfl rfl).1 (by decide)

/-- C2: login fails `UnknownAccount` when no account has the email, else
`AccountUnconfirmed` when unconfirmed, else `BadCredential` when hash
verification fails, and only otherwise succeeds with a token pair whose
refresh token is stored on the account; checks in that precedence. -/
theorem login_precedence_and_success (em pw : String) (db : Db) (now : Nat) :
    (get_user_by_email em db = none →
        login em pw db now = RouteResult.err AuthError.unknownAccount db) ∧
    (∀ user, get_user_by_email em db = some user →
      (user.confirmed = false →
          login em pw db now =
            RouteResult.err AuthError.accountUnconfirmed db) ∧
      (user.confirmed = true → verify_password pw user.password = false →
          login em pw db now = RouteResult.err AuthError.badCredential db) ∧
      (user.confirmed = true → verify_password pw user.password = true →
          login em pw db now =
            RouteResult.ok
              ⟨create_access_token user.email now,
                create_refresh_token user.email now, "bearer"⟩
              (update_token user
                (some (create_refresh_token user.email now)) db) ∧
          get_user_by_email em
              (update_token user
                (some (create_refresh_token user.email now)) db) =
            some { user with
              refresh_token := some (create_refresh_token user.email now) })) := by
  constructor
  · intro hn
    unfold login
    rw [hn]
  · intro user hu
    refine ⟨fun hc => ?_, fun hc hv => ?_, fun hc hv =>
      ⟨?_, find_update_token em user _ db hu⟩⟩
    · unfold login
      rw [hu]
      simp [hc]
    · unfold login
      rw [hu]
      simp [hc, hv]
    · unfold login
      rw [hu]
      simp [hc, hv]

/-- Witness for C2: login against the unconfirmed account fails with the
confirmation error, store untouched. -/
theorem login_precedence_and_success_witness :
    login "a@x.com" "secret" wDbU 7 =
      RouteResult.err AuthError.accountUnconfirmed wDbU :=
  ((login_precedence_and_success "a@x.com" "secret" wDbU 7).2 wAccU rfl).1 rfl

/-- C3 (code-bug evidence): a password-reset email request for an email
with no matching account crashes — the handler dereferences
`user.email`/`user.username` with no `None` check — instead of safely
no-opping with the generic success message. -/
theorem reset_password_email_crashes_on_unknown_email :
    reset_password_email "ghost@x.com" [] = RouteResult.crash := rfl

/-- C4: email confirmation is idempotent: with a valid email-verify
token whose subject has an account, an already-confirmed account yields
the already-confirmed status with no state change; an unconfirmed
account is set confirmed, and any further confirm with a fresh valid
token returns already-confirmed leaving the store as after the first. -/
theorem confirm_idempotent
    (tok : Token) (db : Db) (now : Nat) (email : String) (user : Account)
    (hdec : get_email_from_token Scope.email_verify tok now = Except.ok email)
    (huser : get_user_by_email email db = some user) :
    (user.confirmed = true →
        confirmed_email tok db now =
          RouteResult.ok Msg.emailAlreadyConfirmed db) ∧
    (user.confirmed = false →
        confirmed_email tok db now =
          RouteResult.ok Msg.emailConfirmed
            (repository_auth.confirmed_email email db) ∧
        ∀ tok2 now2,
          get_email_from_token Scope.email_verify tok2 now2 =
              Except.ok email →
          confirmed_email tok2 (repository_auth.confirmed_email email db)
              now2 =
            RouteResult.ok Msg.emailAlreadyConfirmed
              (repository_auth.confirmed_email email db)) := by
  constructor
  · intro hc
    unfold confirmed_email
    rw [hdec]
    simp [huser, hc]
  · intro hc
    constructor
    · unfold confirmed_email
      rw [hdec]
      simp [huser, hc]
    · intro tok2 now2 hdec2
      have hfind := find_confirmed_email email user db huser
      unfold confirmed_email
      rw [hdec2]
      simp [hfind]

/-- Witness for C4: confirming the unconfirmed account mutates once and
a second confirm with a fresh token is a no-op on that state. -/
theorem confirm_idempotent_witness :
    confirmed_email wVerifyTok wDbU 5 =
      RouteResult.ok Msg.emailConfirmed
        (repository_auth.confirmed_email "a@x.com" wDbU) ∧
    confirmed_email wVerifyTok (repository_auth.confirmed_email "a@x.com" wDbU)
        7 =
      RouteResult.ok Msg.emailAlreadyConfirmed
        (repository_auth.confirmed_email "a@x.com" wDbU) := by
  have h := (confirm_idempotent wVerifyTok wDbU 5 "a@x.com" wAccU rfl rfl).2 rfl
  exact ⟨h.1, h.2 wVerifyTok 7 rfl⟩

/-- C5: with a valid password-reset token, `reset_password` fails
`UnknownAccount` leaving the store exactly unchanged when the subject
has no account; otherwise it succeeds and the account's stored password
hash becomes the credential-hasher hash of the new password. -/
theorem reset_password_unknown_or_rehash
    (tok : Token) (body : ResetPasswordSchema) (db : Db) (now : Nat)
    (email : String)
    (hdec : get_email_from_token Scope.password_reset tok now =
      Except.ok email) :
    (get_user_by_email email db = none →
        reset_password tok body db now =
          RouteResult.err AuthError.unknownAccount db) ∧
    (∀ user, get_user_by_email email db = some user →
        reset_password tok body db now =
          RouteResult.ok Msg.passwordResetSuccess
            (update_user_password user
              (get_password_hash body.new_password) db) ∧
        get_user_by_email email
            (update_user_password user
              (get_password_hash body.new_password) db) =
          some { user with
            password := get_password_hash body.new_password }) := by
  constructor
  · intro hn
    unfold reset_password
    rw [hdec]
    simp [hn]
  · intro user hu
    refine ⟨?_, find_update_password email user _ db hu⟩
    unfold reset_password
    rw [hdec]
    simp [hu]

/-- Witness for C5: resetting the password of the concrete account
stores the hash of the new password. -/
theorem reset_password_unknown_or_rehash_witness :
    reset_password wResetTok ⟨"newpw1", "other"⟩ wDb 5 =
      RouteResult.ok Msg.passwordResetSuccess
        (update_user_password wAcc (get_password_hash "newpw1") wDb) ∧
    get_user_by_email "a@x.com"
        (update_user_password wAcc (get_password_hash "newpw1") wDb) =
      some { wAcc with password := get_password_hash "newpw1" } :=
  (reset_password_unknown_or_rehash wResetTok ⟨"newpw1", "other"⟩ wDb 5
    "a@x.com" rfl).2 wAcc rfl

/-- C6 (code-bug evidence): with an empty store, a validly signed
refresh token for an unknown subject crashes the refresh route, and a
confirmation request for an unknown email crashes `request_email` —
both dereference an absent account instead of returning a discriminated
error. -/
theorem refresh_and_request_email_crash_on_absent_account :
    refresh_token (create_refresh_token "ghost@x.com" 0) [] 1 =
      RouteResult.crash ∧
    request_email "ghost@x.com" [] = RouteResult.crash :=
  ⟨rfl, rfl⟩

/-- C7: every error outcome of the routes other than
`RefreshReuseDetected` returns the store exactly as given; an error
`RefreshReuseDetected` arises only on the refresh route's mismatch path,
whose store is the input with that account's refresh token revoked. -/
theorem only_reuse_detection_mutates_on_error (db : Db) (now : Nat) :
    (∀ body e db2, signup body db = RouteResult.err e db2 → db2 = db) ∧
    (∀ em pw e db2, login em pw db now = RouteResult.err e db2 →
        db2 = db) ∧
    (∀ tok e db2, confirmed_email tok db now = RouteResult.err e db2 →
        db2 = db) ∧
    (∀ tok body e db2,
        reset_password tok body db now = RouteResult.err e db2 →
        db2 = db) ∧
    (∀ tok e db2, refresh_token tok db now = RouteResult.err e db2 →
        e ≠ AuthError.refreshReuseDetected → db2 = db) ∧
    (∀ tok db2,
        refresh_token tok db now =
          RouteResult.err AuthError.refreshReuseDetected db2 →
        ∃ email user, decode_refresh_token tok now = Except.ok email ∧
          get_user_by_email email db = some user ∧
          db2 = update_token user none db ∧
          get_user_by_email email db2 =
            some { user with refresh_token := none }) := by
  refine ⟨?_, ?_, ?_, ?_, ?_, ?_⟩
  · intro body e db2 h
    unfold signup at h
    cases hfind : get_user_by_email body.email db <;>
      rw [hfind] at h <;> simp_all
  · intro em pw e db2 h
    unfold login at h
    cases hfind : get_user_by_email em db with
    | none => rw [hfind] at h; simp_all
    | some user =>
        rw [hfind] at h
        by_cases hc : user.confirmed <;>
          by_cases hv : verify_password pw user.password <;>
            simp [hc, hv] at h <;> simp_all
  · intro tok e db2 h
    unfold confirmed_email at h
    cases hdec : get_email_from_token Scope.email_verify tok now with
    | error e1 => rw [hdec] at h; simp_all
    | ok email =>
        rw [hdec] at h
        cases hfind : get_user_by_email email db with
        | none =>
            simp [hfind] at h
            exact h.2.symm
        | some user =>
            by_cases hc : user.confirmed <;> simp [hfind, hc] at h
  · intro tok body e db2 h
    unfold reset_password at h
    cases hdec : get_email_from_token Scope.password_reset tok now with
    | error e1 => rw [hdec] at h; simp_all
    | ok email =>
        rw [hdec] at h
        cases hfind : get_user_by_email email db with
        | none =>
            simp [hfind] at h
            exact h.2.symm
        | some user => simp [hfind] at h
  · intro tok e db2 h hne
    unfold refresh_token at h
    cases hdec : decode_refresh_token tok now with
    | error e1 => rw [hdec] at h; simp_all
    | ok email =>
        rw [hdec] at h
        cases hfind : get_user_by_email email db with
        | none => simp [hfind] at h
        | some user =>
            by_cases hm : user.refresh_token = some tok
            · simp [hfind, hm] at h
            · simp [hfind, hm] at h
              exact absurd h.1.symm hne
  · intro tok db2 h
    unfold refresh_token at h
    cases hdec : decode_refresh_token tok now with
    | error e1 =>
        rw [hdec] at h
        simp at h
        rcases decode_token_error_kinds tok Scope.refresh now e1 hdec with
          h1 | h1 | h1 <;> simp [h1] at h
    | ok email =>
        rw [hdec] at h
        cases hfind : get_user_by_email email db with
        | none => simp [hfind] at h
        | some user =>
            by_cases hm : user.refresh_token = some tok
            · simp [hfind, hm] at h
            · simp [hfind, hm] at h
              exact ⟨email, user, rfl, hfind, h.symm,
                h ▸ find_update_token email user none db hfind⟩

/-- Witness for C7: a malformed refresh token errors `TokenInvalid` and
leaves the concrete store exactly as it was. -/
theorem only_reuse_detection_mutates_on_error_witness :
    refresh_token (Token.malformed "junk") wDb 0 =
      RouteResult.err AuthError.tokenInvalid wDb ∧ wDb = wDb :=
  ⟨rfl, (only_reuse_detection_mutates_on_error wDb 0).2.2.2.2.1
    (Token.malformed "junk") AuthError.tokenInvalid wDb rfl (by decide)⟩

/-- C8: the outcome of `reset_password` does not depend on the
`r_new_password` confirmation field: two requests identical except for
that field produce the same result and the same store, even when it
disagrees with `new_password`. -/
theorem reset_password_independent_of_repeat_field
    (tok : Token) (npw r1 r2 : String) (db : Db) (now : Nat) :
    reset_password tok ⟨npw, r1⟩ db now =
      reset_password tok ⟨npw, r2⟩ db now := rfl

/-- C9: the signup schema accepts a body exactly when the username
length is within 5..16 and the password length within 6..10; a body
outside the bounds is rejected at the interface with the store — hence
the set of accounts — untouched. -/
theorem signup_validation_bounds (b : UserSchema) (db : Db) :
    (b.validates = true ↔
      (5 ≤ b.username.length ∧ b.username.length ≤ 16 ∧
       6 ≤ b.password.length ∧ b.password.length ≤ 10)) ∧
    (b.validates = false →
      signup_endpoint b db =
        RouteResult.err AuthError.validationRejected db) := by
  constructor
  · unfold UserSchema.validates
    simp [and_assoc]
  · intro hv
    unfold signup_endpoint
    simp [hv]

/-- Witness for C9: a 3-character username is rejected at the interface
with the store left empty. -/
theorem signup_validation_bounds_witness :
    signup_endpoint wBadBody [] =
      RouteResult.err AuthError.validationRejected [] :=
  (signup_validation_bounds wBadBody []).2 (by decide)

/-- C10: a successful `reset_password` writes only the password-hash
field: every row keeps its id, username, email, confirmed flag, refresh
token and avatar; in particular every stored refresh token is unchanged,
and any refresh call that succeeded against the old store still succeeds
with the same token pair against the new one. -/
theorem reset_password_preserves_refresh_tokens
    (tok : Token) (body : ResetPasswordSchema) (db : Db) (now : Nat)
    (m : Msg) (db2 : Db)
    (h : reset_password tok body db now = RouteResult.ok m db2) :
    db2.map Account.frame = db.map Account.frame ∧
    (∀ e, (get_user_by_email e db2).map (fun v => v.refresh_token) =
      (get_user_by_email e db).map (fun v => v.refresh_token)) ∧
    (∀ rt now2 pair dbx,
      refresh_token rt db now2 = RouteResult.ok pair dbx →
      ∃ dby, refresh_token rt db2 now2 = RouteResult.ok pair dby) := by
  unfold reset_password at h
  cases hdec : get_email_from_token Scope.password_reset tok now with
  | error e1 => rw [hdec] at h; simp at h
  | ok email =>
      rw [hdec] at h
      cases hfind : get_user_by_email email db with
      | none => simp [hfind] at h
      | some user =>
          simp [hfind] at h
          have hdb2 : db2 =
              update_user_password user
                (get_password_hash body.new_password) db := h.2.symm
          subst hdb2
          refine ⟨?_, ?_, ?_⟩
          · exact updWhere_map_proj Account.frame (fun v => v.id == user.id)
              (fun v => { v with
                password := get_password_hash body.new_password })
              (fun v => rfl) db
          · intro e
            unfold update_user_password
            rw [get_user_by_email_updWhere e (fun v => v.id == user.id)
              (fun v => { v with
                password := get_password_hash body.new_password })
              (fun v => rfl) db]
            cases get_user_by_email e db with
            | none => rfl
            | some u2 =>
                by_cases hp : u2.id = user.id <;> simp [hp]
          · intro rt now2 pair dbx hr
            unfold refresh_token at hr ⊢
            cases hdec2 : decode_refresh_token rt now2 with
            | error e2 => rw [hdec2] at hr; simp at hr
            | ok email2 =>
                rw [hdec2] at hr
                cases hfind2 : get_user_by_email email2 db with
                | none => simp [hfind2] at hr
                | some u2 =>
                    by_cases hm : u2.refresh_token = some rt
                    · have hfind2b :
                          get_user_by_email email2
                            (update_user_password user
                              (get_password_hash body.new_password) db) =
                            some (if u2.id == user.id then
                              { u2 with password :=
                                get_password_hash body.new_password }
                              else u2) := by
                        unfold update_user_password
                        rw [get_user_by_email_updWhere email2
                          (fun v => v.id == user.id)
                          (fun v => { v with password :=
                            get_password_hash body.new_password })
                          (fun v => rfl) db, hfind2]
                        rfl
                      simp [hfind2, hm] at hr
                      by_cases hp : (u2.id == user.id) = true
                      · rw [hp] at hfind2b
                        simp at hfind2b
                        simp [hfind2b, hm, hr.1, hr.2.symm]
                      · rw [if_neg hp] at hfind2b
                        simp [hfind2b, hm, hr.1, hr.2.symm]
                    · simp [hfind2, hm] at hr

/-- Witness for C10: resetting the concrete account's password leaves
its live refresh token in place. -/
theorem reset_password_preserves_refresh_tokens_witness :
    (update_user_password wAcc (get_password_hash "newpw1") wDb).map
        Account.frame = wDb.map Account.frame :=
  (reset_password_preserves_refresh_tokens wResetTok ⟨"newpw1", "x"⟩ wDb 5
    Msg.passwordResetSuccess
    (update_user_password wAcc (get_password_hash "newpw1") wDb) rfl).1

end Website
